import Mathlib

/-!
Verification of the claude-tracker token accounting and reset-time logic.

The development shallowly embeds the two Python modules:

* `calculate_session_tokens.py` — the session log reader
  (`calculate_session_tokens`) and the reset-time calculator
  (`calculate_reset_time`);
* `claude-with-progress.py` — the usage tracker of the wrapper
  (`estimate_tokens`, `estimate_cost`, the recording step of `run_claude`,
  and the reset command of `main`).

Machine conventions: token counts are `Nat`, instants are `Int` seconds,
Python floats are modelled by `ℚ` (all the arithmetic checked here is exact),
and Python exceptions are modelled by explicit `Except` / sum types.
-/

namespace ClaudeTracker

/-! ### Data model of one session log line

A log line is newline-delimited JSON.  After `json.loads` the reader touches
the fields `timestamp`, `type`, `message` and `message.usage`, and inside the
usage object `input_tokens` and `output_tokens`; each is optional.  A line can
also fail `json.loads` (a `JSONDecodeError`, skipped per line), or parse to a
non-object value on which the subsequent field accesses raise an exception
that escapes the per-line handler (`fieldError`). -/

structure Usage where
  input_tokens : Option Nat
  output_tokens : Option Nat
  deriving DecidableEq, Repr

structure Message where
  usage : Option Usage
  deriving DecidableEq, Repr

structure Record where
  timestamp : Option String
  type : Option String
  message : Option Message
  deriving DecidableEq, Repr

inductive Line where
  | malformed : Line
  | fieldError : Line
  | record : Record → Line
  deriving DecidableEq, Repr

/-! ### Session log reader: `calculate_session_tokens` -/

/-- The condition
`data.get('type') == 'assistant' and 'message' in data and 'usage' in data['message']`
followed by `usage = data['message']['usage']`: the nested usage object of a
qualifying assistant record, if any. -/
def Record.usageOf (r : Record) : Option Usage :=
  match r.type, r.message with
  | some "assistant", some m => m.usage
  | _, _ => none

/-- `if 'timestamp' in data and first_timestamp is None: first_timestamp = data['timestamp']`. -/
def tsStep (ts rts : Option String) : Option String :=
  match ts, rts with
  | none, some t => some t
  | _, _ => ts

/-- The scanning loop of `calculate_session_tokens`: state is
`(total_input_tokens, total_output_tokens, first_timestamp)`.
A `malformed` line hits `except json.JSONDecodeError: continue`; a
`fieldError` line raises out of the loop into the outer
`except Exception` handler, which returns `(0, 0, None)`.  For a parsed
record, the first present timestamp is retained, and a qualifying assistant
record contributes `usage.get("input_tokens", 0)` and
`usage.get("output_tokens", 0)` to the running totals. -/
def scanLines : List Line → Nat → Nat → Option String → Nat × Nat × Option String
  | [], ti, tout, ts => (ti, tout, ts)
  | Line.malformed :: rest, ti, tout, ts => scanLines rest ti tout ts
  | Line.fieldError :: _, _, _, _ => (0, 0, none)
  | Line.record r :: rest, ti, tout, ts =>
    match r.usageOf with
    | some u =>
      scanLines rest (ti + u.input_tokens.getD 0) (tout + u.output_tokens.getD 0)
        (tsStep ts r.timestamp)
    | none => scanLines rest ti tout (tsStep ts r.timestamp)

/-- `calculate_session_tokens` on the lines of the session file: totals start
at zero and no timestamp has been seen. -/
def calculate_session_tokens (lines : List Line) : Nat × Nat × Option String :=
  scanLines lines 0 0 none

/-- A record qualifies for token accounting when its type discriminator is
`"assistant"` and it carries a nested `message.usage` object. -/
def Record.hasAssistantUsage (r : Record) : Bool :=
  match r.type, r.message with
  | some "assistant", some m => m.usage.isSome
  | _, _ => false

/-- Spec-side: the `input_tokens` contribution of one record — counted only
for qualifying assistant records, with a missing field contributing zero. -/
def specRecordInput (r : Record) : Nat :=
  match r.type, r.message with
  | some "assistant", some m =>
    match m.usage with
    | some u => u.input_tokens.getD 0
    | none => 0
  | _, _ => 0

/-- Spec-side: the `output_tokens` contribution of one record. -/
def specRecordOutput (r : Record) : Nat :=
  match r.type, r.message with
  | some "assistant", some m =>
    match m.usage with
    | some u => u.output_tokens.getD 0
    | none => 0
  | _, _ => 0

/-- Spec-side: the timestamp a line carries, if any. -/
def Line.tsOf : Line → Option String
  | Line.record r => r.timestamp
  | _ => none

/-- Spec-side: the timestamp of the first line, in file order, that carries
one. -/
def firstTimestampSpec : List Line → Option String
  | [] => none
  | l :: rest =>
    match l.tsOf with
    | some t => some t
    | none => firstTimestampSpec rest

/-! ### Reset-time calculator: `calculate_reset_time`

`datetime.datetime.fromisoformat` yields a timezone-aware datetime exactly
when the string carries an offset (the reader first rewrites a trailing `Z`
to `+00:00`); otherwise a naive one.  Comparing or subtracting a naive and
an aware datetime raises `TypeError`.  The whole body is wrapped in
`except Exception`, which returns `(None, None)`. -/

inductive PyDatetime where
  | naive : Int → PyDatetime
  | aware : Int → PyDatetime
  deriving DecidableEq, Repr

/-- `datetime + timedelta` keeps the awareness of the datetime. -/
def PyDatetime.addSeconds : PyDatetime → Int → PyDatetime
  | PyDatetime.naive s, d => PyDatetime.naive (s + d)
  | PyDatetime.aware s, d => PyDatetime.aware (s + d)

/-- Python `a >= b` on datetimes: raises `TypeError` when exactly one side is
aware. -/
def pyGE : PyDatetime → PyDatetime → Except Unit Bool
  | PyDatetime.naive a, PyDatetime.naive b => Except.ok (decide (b ≤ a))
  | PyDatetime.aware a, PyDatetime.aware b => Except.ok (decide (b ≤ a))
  | _, _ => Except.error ()

/-- Python `a - b` on datetimes, in whole seconds: raises `TypeError` when
exactly one side is aware. -/
def pySub : PyDatetime → PyDatetime → Except Unit Int
  | PyDatetime.naive a, PyDatetime.naive b => Except.ok (a - b)
  | PyDatetime.aware a, PyDatetime.aware b => Except.ok (a - b)
  | _, _ => Except.error ()

/-- Outcome of `fromisoformat` on the stored first-timestamp string. -/
inductive ParseOutcome where
  | unparsable : ParseOutcome
  | parsed : PyDatetime → ParseOutcome
  deriving DecidableEq, Repr

/-- The session window: `timedelta(hours=5)` in seconds. -/
def RESET_WINDOW_SECONDS : Int := 5 * 3600

/-- `calculate_reset_time`: `none` stands for the `(None, None)` result.
An absent or unparsable timestamp, a `TypeError` from mixing naive and aware
datetimes, or `now >= reset_time`, all yield `(None, None)`; otherwise the
remaining seconds are split as
`hours = remaining // 3600`, `minutes = (remaining % 3600) // 60`,
Python floor division and floor modulus (`Int.fdiv` / `Int.fmod`). -/
def calculate_reset_time (ts : Option ParseOutcome) (nowUtc : Int) : Option (Int × Int) :=
  match ts with
  | none => none
  | some ParseOutcome.unparsable => none
  | some (ParseOutcome.parsed start_time) =>
    let reset_time := start_time.addSeconds RESET_WINDOW_SECONDS
    let now := PyDatetime.aware nowUtc
    match pyGE now reset_time with
    | Except.error _ => none
    | Except.ok true => none
    | Except.ok false =>
      match pySub reset_time now with
      | Except.error _ => none
      | Except.ok rem => some (rem.fdiv 3600, (rem.fmod 3600).fdiv 60)

/-! ### Wrapper usage tracker: `claude-with-progress.py` -/

structure UsageState where
  total_tokens : Nat
  total_cost : ℚ
  requests : Nat
  session_start : String
  deriving DecidableEq, Repr

/-- `estimate_tokens`: `len(text) // 4`. -/
def estimate_tokens (text : String) : Nat := text.length / 4

/-- `estimate_cost`: `input_tokens * 3.0 / 1_000_000 + output_tokens * 15.0 / 1_000_000`. -/
def estimate_cost (input_tokens output_tokens : Nat) : ℚ :=
  input_tokens * 3 / 1000000 + output_tokens * 15 / 1000000

/-- The recording step inside `run_claude`: add the token sum to
`total_tokens`, the estimated cost to `total_cost`, and one to `requests`. -/
def recordUsage (s : UsageState) (input_tokens output_tokens : Nat) : UsageState :=
  { s with
    total_tokens := s.total_tokens + (input_tokens + output_tokens)
    total_cost := s.total_cost + estimate_cost input_tokens output_tokens
    requests := s.requests + 1 }

/-- Captured result of the wrapped subprocess call. -/
structure RunResult where
  returncode : Int
  stdout : String
  stderr : String
  deriving DecidableEq, Repr

/-- `user_input = ' '.join(args) if args else ""` (note that
`String.intercalate` of an empty list is already `""`). -/
def joinedInput (args : List String) : String := String.intercalate " " args

/-- The state update of `run_claude`: usage is recorded exactly when
`result.returncode == 0 and user_input and result.stdout`, Python truthiness
of a string being non-emptiness. -/
def run_claude_update (s : UsageState) (args : List String) (res : RunResult) : UsageState :=
  let user_input := joinedInput args
  if res.returncode = 0 ∧ user_input ≠ "" ∧ res.stdout ≠ "" then
    recordUsage s (estimate_tokens user_input) (estimate_tokens res.stdout)
  else s

/-- The fresh zero state built by `load_usage` on failure and by the reset
command, with `session_start` the current time rendered by `isoformat`. -/
def fresh_usage (now : String) : UsageState :=
  { total_tokens := 0, total_cost := 0, requests := 0, session_start := now }

/-- The `--reset-session` branch of `main`: the wrapper state is replaced by
the fresh zero state and `save_usage` writes it out.  The second component is
the content written to the usage file when the write succeeds. -/
def reset_session (now : String) : UsageState × Option UsageState :=
  let fresh := fresh_usage now
  (fresh, some fresh)

/-! ### Lemmas about the scanning loop -/

/-- Per-line input contribution, for arbitrary well-scanned lines. -/
def lineInput : Line → Nat
  | Line.record r => specRecordInput r
  | _ => 0

/-- Per-line output contribution, for arbitrary well-scanned lines. -/
def lineOutput : Line → Nat
  | Line.record r => specRecordOutput r
  | _ => 0

lemma specRecordInput_eq (r : Record) :
    specRecordInput r = (r.usageOf.map fun u => u.input_tokens.getD 0).getD 0 := by
  rcases r with ⟨rts, rty, rmsg⟩
  simp only [specRecordInput, Record.usageOf]
  split
  · rename_i m
    cases m.usage <;> rfl
  · rfl

lemma specRecordOutput_eq (r : Record) :
    specRecordOutput r = (r.usageOf.map fun u => u.output_tokens.getD 0).getD 0 := by
  rcases r with ⟨rts, rty, rmsg⟩
  simp only [specRecordOutput, Record.usageOf]
  split
  · rename_i m
    cases m.usage <;> rfl
  · rfl

lemma hasAssistantUsage_eq (r : Record) :
    r.hasAssistantUsage = r.usageOf.isSome := by
  rcases r with ⟨rts, rty, rmsg⟩
  simp only [Record.hasAssistantUsage, Record.usageOf]
  split <;> simp_all

lemma scanLines_cons_record (r : Record) (rest : List Line) (ti tout : Nat)
    (ts : Option String) :
    scanLines (Line.record r :: rest) ti tout ts =
      scanLines rest (ti + specRecordInput r) (tout + specRecordOutput r)
        (tsStep ts r.timestamp) := by
  rw [specRecordInput_eq, specRecordOutput_eq]
  cases h : r.usageOf <;> simp [scanLines, h]

lemma scanLines_totals :
    ∀ (lines : List Line), Line.fieldError ∉ lines →
      ∀ ti tout ts,
        (scanLines lines ti tout ts).1 = ti + (lines.map lineInput).sum ∧
        (scanLines lines ti tout ts).2.1 = tout + (lines.map lineOutput).sum := by
  intro lines
  induction lines with
  | nil => intro _ ti tout ts; simp [scanLines]
  | cons l rest ih =>
    intro h ti tout ts
    have hrest : Line.fieldError ∉ rest := fun hx => h (List.mem_cons_of_mem _ hx)
    cases l with
    | malformed =>
      have := ih hrest ti tout ts
      simpa [scanLines, lineInput, lineOutput] using this
    | fieldError => exact absurd (List.mem_cons_self _ _) h
    | record r =>
      rw [scanLines_cons_record]
      obtain ⟨h1, h2⟩ :=
        ih hrest (ti + specRecordInput r) (tout + specRecordOutput r) (tsStep ts r.timestamp)
      constructor
      · rw [h1]; simp [lineInput]; omega
      · rw [h2]; simp [lineOutput]; omega

lemma scanLines_ts_some :
    ∀ (lines : List Line), Line.fieldError ∉ lines →
      ∀ ti tout t, (scanLines lines ti tout (some t)).2.2 = some t := by
  intro lines
  induction lines with
  | nil => intro _ ti tout t; simp [scanLines]
  | cons l rest ih =>
    intro h ti tout t
    have hrest : Line.fieldError ∉ rest := fun hx => h (List.mem_cons_of_mem _ hx)
    cases l with
    | malformed => simpa [scanLines] using ih hrest ti tout t
    | fieldError => exact absurd (List.mem_cons_self _ _) h
    | record r =>
      rw [scanLines_cons_record]
      simpa [tsStep] using ih hrest _ _ t

lemma scanLines_ts_none :
    ∀ (lines : List Line), Line.fieldError ∉ lines →
      ∀ ti tout, (scanLines lines ti tout none).2.2 = firstTimestampSpec lines := by
  intro lines
  induction lines with
  | nil => intro _ ti tout; simp [scanLines, firstTimestampSpec]
  | cons l rest ih =>
    intro h ti tout
    have hrest : Line.fieldError ∉ rest := fun hx => h (List.mem_cons_of_mem _ hx)
    cases l with
    | malformed =>
      simpa [scanLines, firstTimestampSpec, Line.tsOf] using ih hrest ti tout
    | fieldError => exact absurd (List.mem_cons_self _ _) h
    | record r =>
      rw [scanLines_cons_record]
      cases hts : r.timestamp with
      | none =>
        simpa [tsStep, firstTimestampSpec, Line.tsOf, hts] using ih hrest _ _
      | some t =>
        simp only [tsStep, firstTimestampSpec, Line.tsOf, hts]
        exact scanLines_ts_some rest hrest _ _ t

lemma scanLines_drop_malformed :
    ∀ (l1 l2 : List Line) (ti tout : Nat) (ts : Option String),
      scanLines (l1 ++ Line.malformed :: l2) ti tout ts = scanLines (l1 ++ l2) ti tout ts := by
  intro l1
  induction l1 with
  | nil => intro l2 ti tout ts; simp [scanLines]
  | cons l rest ih =>
    intro l2 ti tout ts
    cases l with
    | malformed => simpa [scanLines] using ih l2 ti tout ts
    | fieldError => simp [scanLines]
    | record r =>
      rw [List.cons_append, scanLines_cons_record, List.cons_append, scanLines_cons_record]
      exact ih l2 _ _ _

lemma scanLines_fieldError_absorb :
    ∀ (l1 l2 : List Line) (ti tout : Nat) (ts : Option String),
      scanLines (l1 ++ Line.fieldError :: l2) ti tout ts = (0, 0, none) := by
  intro l1
  induction l1 with
  | nil => intro l2 ti tout ts; simp [scanLines]
  | cons l rest ih =>
    intro l2 ti tout ts
    cases l with
    | malformed => simpa [scanLines] using ih l2 ti tout ts
    | fieldError => simp [scanLines]
    | record r =>
      rw [List.cons_append, scanLines_cons_record]
      exact ih l2 _ _ _

/-! ## Claim theorems -/

/-- Sample assistant record carrying a usage object and a timestamp. -/
def sampleA : Record :=
  { timestamp := some "t1", type := some "assistant",
    message := some { usage := some { input_tokens := some 3, output_tokens := some 5 } } }

/-- Sample non-assistant record carrying a timestamp. -/
def sampleB : Record :=
  { timestamp := some "t2", type := some "user", message := none }

/-- Sample log: a record with no timestamp, a malformed line, then two
timestamped records, the first of them non-assistant. -/
def wlines : List Line :=
  [Line.record { timestamp := none, type := some "user", message := none },
   Line.malformed, Line.record sampleB, Line.record sampleA]

/-- A concrete prior wrapper state. -/
def state0 : UsageState := fresh_usage "2024-01-01T00:00:00"

/-- C1: for a parsable timezone-aware session start whose reset instant
(start + 5 hours) is strictly after the current UTC time,
`calculate_reset_time` returns hours = floor(remaining / 3600) and
minutes = floor((remaining mod 3600) / 60), both non-negative, by
truncation; and at or past the reset instant it returns no countdown. -/
theorem claim_C1 (start_s now_s : Int) (h : now_s < start_s + RESET_WINDOW_SECONDS) :
    (calculate_reset_time (some (ParseOutcome.parsed (PyDatetime.aware start_s))) now_s =
        some ((start_s + RESET_WINDOW_SECONDS - now_s).fdiv 3600,
          ((start_s + RESET_WINDOW_SECONDS - now_s).fmod 3600).fdiv 60) ∧
      0 ≤ (start_s + RESET_WINDOW_SECONDS - now_s).fdiv 3600 ∧
      0 ≤ ((start_s + RESET_WINDOW_SECONDS - now_s).fmod 3600).fdiv 60) ∧
    ∀ s n : Int, s + RESET_WINDOW_SECONDS ≤ n →
      calculate_reset_time (some (ParseOutcome.parsed (PyDatetime.aware s))) n = none := by
  constructor
  · have hd : decide (start_s + RESET_WINDOW_SECONDS ≤ now_s) = false := by
      simp only [decide_eq_false_iff_not, not_le]; exact h
    refine ⟨?_, ?_, ?_⟩
    · simp [calculate_reset_time, PyDatetime.addSeconds, pyGE, pySub, hd]
    · exact Int.fdiv_nonneg (by omega) (by decide)
    · refine Int.fdiv_nonneg ?_ (by decide)
      rw [Int.fmod_eq_emod _ (by decide : (0 : Int) ≤ 3600)]
      exact Int.emod_nonneg _ (by decide)
  · intro s n hsn
    have hd : decide (s + RESET_WINDOW_SECONDS ≤ n) = true := by simpa using hsn
    simp [calculate_reset_time, PyDatetime.addSeconds, pyGE, hd]

/-- C1 at the documented instance: start 2024-01-01T00:00:00Z
(epoch 1704067200) and now 2024-01-01T02:30:00Z, 9000 seconds later,
yield 2 hours 30 minutes. -/
theorem claim_C1_witness :
    ((1704076200 : Int) < 1704067200 + RESET_WINDOW_SECONDS) ∧
    calculate_reset_time (some (ParseOutcome.parsed (PyDatetime.aware 1704067200)))
      1704076200 = some (2, 30) := by
  have h : (1704076200 : Int) < 1704067200 + RESET_WINDOW_SECONDS := by decide
  refine ⟨h, ?_⟩
  rw [(claim_C1 1704067200 1704076200 h).1.1]
  decide

/-- C2: over well-formed record lines, the totals are the sums of the
`input_tokens` and `output_tokens` of exactly the qualifying assistant
records, order-independently, and a log with no qualifying records yields
totals (0, 0).  A missing numeric field contributes zero by definition of
`specRecordInput` and `specRecordOutput`. -/
theorem claim_C2 (records : List Record) :
    (calculate_session_tokens (records.map Line.record)).1 =
      (records.map specRecordInput).sum ∧
    (calculate_session_tokens (records.map Line.record)).2.1 =
      (records.map specRecordOutput).sum ∧
    (∀ records2 : List Record, records.Perm records2 →
      (calculate_session_tokens (records2.map Line.record)).1 =
        (calculate_session_tokens (records.map Line.record)).1 ∧
      (calculate_session_tokens (records2.map Line.record)).2.1 =
        (calculate_session_tokens (records.map Line.record)).2.1) ∧
    ((∀ r ∈ records, r.hasAssistantUsage = false) →
      (calculate_session_tokens (records.map Line.record)).1 = 0 ∧
      (calculate_session_tokens (records.map Line.record)).2.1 = 0) := by
  have key : ∀ rs : List Record,
      (calculate_session_tokens (rs.map Line.record)).1 =
        (rs.map specRecordInput).sum ∧
      (calculate_session_tokens (rs.map Line.record)).2.1 =
        (rs.map specRecordOutput).sum := by
    intro rs
    have hmem : Line.fieldError ∉ rs.map Line.record := by simp [List.mem_map]
    obtain ⟨h1, h2⟩ := scanLines_totals (rs.map Line.record) hmem 0 0 none
    constructor
    · rw [calculate_session_tokens, h1, Nat.zero_add, List.map_map]
      rfl
    · rw [calculate_session_tokens, h2, Nat.zero_add, List.map_map]
      rfl
  have zeroed : ∀ rs : List Record, (∀ r ∈ rs, r.hasAssistantUsage = false) →
      ∀ f : Usage → Option Nat,
        (rs.map fun r => ((r.usageOf.map fun u => (f u).getD 0).getD 0 : Nat)).sum = 0 := by
    intro rs hq f
    apply List.sum_eq_zero
    intro x hx
    obtain ⟨r, hr, rfl⟩ := List.mem_map.mp hx
    have hb := hq r hr
    rw [hasAssistantUsage_eq] at hb
    cases hu : r.usageOf with
    | none => rfl
    | some u => rw [hu] at hb; simp at hb
  refine ⟨(key records).1, (key records).2.symm ▸ (key records).2, ?_, ?_⟩
  · intro records2 hp
    constructor
    · rw [(key records2).1, (key records).1]
      exact ((hp.map specRecordInput).sum_eq).symm
    · rw [(key records2).2, (key records).2]
      exact ((hp.map specRecordOutput).sum_eq).symm
  · intro hq
    constructor
    · rw [(key records).1]
      have hmap : records.map specRecordInput =
          records.map fun r =>
            ((r.usageOf.map fun u => (u.input_tokens).getD 0).getD 0 : Nat) :=
        List.map_congr_left fun r _ => specRecordInput_eq r
      rw [hmap]
      exact zeroed records hq (fun u => u.input_tokens)
    · rw [(key records).2]
      have hmap : records.map specRecordOutput =
          records.map fun r =>
            ((r.usageOf.map fun u => (u.output_tokens).getD 0).getD 0 : Nat) :=
        List.map_congr_left fun r _ => specRecordOutput_eq r
      rw [hmap]
      exact zeroed records hq (fun u => u.output_tokens)

/-- C2 at a concrete log of one assistant record and one user record,
including a permuted order. -/
theorem claim_C2_witness :
    (calculate_session_tokens ([sampleA, sampleB].map Line.record)).1 =
      ([sampleA, sampleB].map specRecordInput).sum ∧
    ([sampleA, sampleB].map specRecordInput).sum = 3 ∧
    List.Perm [sampleA, sampleB] [sampleB, sampleA] ∧
    (calculate_session_tokens ([sampleB, sampleA].map Line.record)).1 =
      (calculate_session_tokens ([sampleA, sampleB].map Line.record)).1 := by
  have hp : List.Perm [sampleA, sampleB] [sampleB, sampleA] :=
    List.Perm.swap sampleB sampleA []
  exact ⟨(claim_C2 [sampleA, sampleB]).1, by decide, hp,
    ((claim_C2 [sampleA, sampleB]).2.2.1 [sampleB, sampleA] hp).1⟩

/-- C3: a single malformed line interleaved anywhere among the other lines is
skipped: the result equals the result on the remaining lines alone. -/
theorem claim_C3 (valid1 valid2 : List Line) :
    calculate_session_tokens (valid1 ++ Line.malformed :: valid2) =
      calculate_session_tokens (valid1 ++ valid2) :=
  scanLines_drop_malformed valid1 valid2 0 0 none

/-- C4 counterexample: the wrapped call exits with status zero and produces
non-empty output, yet nothing is recorded, because the argument list — hence
`user_input` — is empty; the claim asserted recording happens if and only if
exit status is zero and output is non-empty. -/
theorem claim_C4_counterexample :
    (RunResult.mk 0 "ok" "").returncode = 0 ∧
    (RunResult.mk 0 "ok" "").stdout ≠ "" ∧
    run_claude_update state0 [] (RunResult.mk 0 "ok" "") = state0 ∧
    (run_claude_update state0 [] (RunResult.mk 0 "ok" "")).requests = state0.requests := by
  refine ⟨rfl, by decide, by decide, by decide⟩

/-- C4 amended: usage is recorded (token sum added, estimated cost added,
request count incremented by one) if and only if the wrapped call exited with
status zero, the joined input text is non-empty, and the output text is
non-empty; and two recording steps with tokens 500 and 1500 add 2 × 2000
tokens and 2 requests. -/
theorem claim_C4_amended (s : UsageState) (args : List String) (res : RunResult) :
    ((res.returncode = 0 ∧ joinedInput args ≠ "" ∧ res.stdout ≠ "") →
      run_claude_update s args res =
        recordUsage s (estimate_tokens (joinedInput args)) (estimate_tokens res.stdout)) ∧
    (¬(res.returncode = 0 ∧ joinedInput args ≠ "" ∧ res.stdout ≠ "") →
      run_claude_update s args res = s) ∧
    (recordUsage (recordUsage s 500 1500) 500 1500).total_tokens =
      s.total_tokens + 2 * 2000 ∧
    (recordUsage (recordUsage s 500 1500) 500 1500).requests = s.requests + 2 := by
  refine ⟨?_, ?_, ?_, rfl⟩
  · intro hc
    simp only [run_claude_update, if_pos hc]
  · intro hc
    simp only [run_claude_update, if_neg hc]
  · show s.total_tokens + (500 + 1500) + (500 + 1500) = s.total_tokens + 2 * 2000
    omega

/-- C4 amended at a concrete input: a successful call with argument `hello`
and output `ok` records usage. -/
theorem claim_C4_witness :
    ((RunResult.mk 0 "ok" "").returncode = 0 ∧ joinedInput ["hello"] ≠ "" ∧
      (RunResult.mk 0 "ok" "").stdout ≠ "") ∧
    run_claude_update state0 ["hello"] (RunResult.mk 0 "ok" "") =
      recordUsage state0 (estimate_tokens (joinedInput ["hello"]))
        (estimate_tokens (RunResult.mk 0 "ok" "").stdout) ∧
    (run_claude_update state0 ["hello"] (RunResult.mk 0 "ok" "")).requests =
      state0.requests + 1 :=
  ⟨by decide, (claim_C4_amended state0 ["hello"] (RunResult.mk 0 "ok" "")).1 (by decide),
    by decide⟩

/-- A 400-character string. -/
def fourHundredChars : String := String.mk (List.replicate 400 (Char.ofNat 97))

set_option maxRecDepth 8000 in
/-- C5: the token estimate is floor(length / 4) — 100 for a 400-character
string — and the cost estimate is
input × (3.0 / 1,000,000) + output × (15.0 / 1,000,000), so a million input
tokens cost 3.0 and a million output tokens cost 15.0. -/
theorem claim_C5 (text : String) (i o : Nat) :
    estimate_tokens text = text.length / 4 ∧
    estimate_tokens fourHundredChars = 100 ∧
    estimate_cost i o = i * ((3 : ℚ) / 1000000) + o * ((15 : ℚ) / 1000000) ∧
    estimate_cost 1000000 0 = 3 ∧
    estimate_cost 0 1000000 = 15 := by
  refine ⟨rfl, by decide, ?_, ?_, ?_⟩
  · rw [estimate_cost]; ring
  · rw [estimate_cost]; norm_num
  · rw [estimate_cost]; norm_num

/-- C6: over a log whose lines all stay inside the per-line error handling,
the returned first timestamp is the timestamp field of the first line in file
order that carries one, regardless of record type, and later timestamps never
replace it. -/
theorem claim_C6 (lines : List Line) (h : Line.fieldError ∉ lines) :
    (calculate_session_tokens lines).2.2 = firstTimestampSpec lines :=
  scanLines_ts_none lines h 0 0

/-- C6 at a concrete log where the first timestamp is carried by a
non-assistant record sitting after a malformed line. -/
theorem claim_C6_witness :
    Line.fieldError ∉ wlines ∧ (calculate_session_tokens wlines).2.2 = some "t2" :=
  ⟨by decide, by rw [claim_C6 wlines (by decide)]; rfl⟩

/-- C7: the reset command replaces the state by total_tokens = 0,
total_cost = 0.0, requests = 0 and a freshly-set session start, and writes
exactly that fresh state out. -/
theorem claim_C7 (now : String) :
    (reset_session now).1.total_tokens = 0 ∧
    (reset_session now).1.total_cost = 0 ∧
    (reset_session now).1.requests = 0 ∧
    (reset_session now).1.session_start = now ∧
    (reset_session now).2 = some (reset_session now).1 :=
  ⟨rfl, rfl, rfl, rfl, rfl⟩

/-- C8: each recording step leaves the token total and the cost total
non-decreasing and increments the request count by exactly one, for any input
and output texts. -/
theorem claim_C8 (s : UsageState) (input_text output_text : String) :
    s.total_tokens ≤
      (recordUsage s (estimate_tokens input_text) (estimate_tokens output_text)).total_tokens ∧
    s.total_cost ≤
      (recordUsage s (estimate_tokens input_text) (estimate_tokens output_text)).total_cost ∧
    (recordUsage s (estimate_tokens input_text) (estimate_tokens output_text)).requests =
      s.requests + 1 := by
  refine ⟨Nat.le_add_right _ _, le_add_of_nonneg_right ?_, rfl⟩
  rw [estimate_cost]
  positivity

/-- C9: a line that is valid JSON but not an object raises past the per-line
handler, so the scan aborts and all partially accumulated totals are
discarded: the result is (0, 0, absent) whatever else the log contains. -/
theorem claim_C9 (l1 l2 : List Line) :
    calculate_session_tokens (l1 ++ Line.fieldError :: l2) = (0, 0, none) :=
  scanLines_fieldError_absorb l1 l2 0 0 none

/-- C10: a first timestamp that parses to a timezone-naive datetime makes the
comparison with the timezone-aware current UTC time raise, which the handler
maps to no countdown, whatever the current time is. -/
theorem claim_C10 (start_s nowUtc : Int) :
    calculate_reset_time (some (ParseOutcome.parsed (PyDatetime.naive start_s))) nowUtc =
      none := by
  simp [calculate_reset_time, PyDatetime.addSeconds, pyGE]

end ClaudeTracker
